import Mathlib

/-!
Shallow embedding of FerretCode/snail-api-wrapper (src/index.js).

The source wraps every operation in `new Promise(async (resolve, reject) => ...)`.
We embed the executor of each such promise as a small state-passing program:
the state records whether the deferred has been settled (first `resolve` or
`reject` wins, later calls are no-ops) and the list of HTTP requests handed to
the transport.  A JavaScript exception thrown inside the async executor rejects
only the inner async function; the `Promise` constructor only catches
synchronous throws, so such an exception aborts the executor without settling
the outer promise.  The embedding models this by an abortive `thrown` result
that leaves the settlement state as it was.

The HTTP transport (global `fetch`) is an external collaborator: each operation
takes a `FetchResult` oracle saying whether the single `fetch` call it makes
would reject (transport failure) or resolve with a `Response`.  Per the WHATWG
fetch standard a `Response` is not a promise: it has `status`, `statusText`,
`text()` and `json()` members and no `catch` member, so the source expression
`res.catch(reject)` looks up a missing member (yielding `undefined`) and calls
it, which throws a `TypeError` at run time.
-/

namespace Snail

/-- A JavaScript value the wrapper can settle a promise with: `false` from
`verifyPayment`, a text body from the link-creation endpoints, an opaque
parsed-JSON payload (kept as its raw text, since the client never inspects
it), or `undefined` for the void endpoints. -/
inductive JsValue where
  | bool (b : Bool)
  | str (s : String)
  | jsonVal (raw : String)
  | undef
  deriving Repr, DecidableEq

/-- A JavaScript error value: `new Error(msg)`, a runtime `TypeError`,
a thrown plain string (the constructor throws a string literal), or a
transport-level failure value. -/
inductive JsError where
  | jsError (msg : String)
  | typeError (msg : String)
  | thrownString (s : String)
  | transport (msg : String)
  deriving Repr, DecidableEq

/-- The JSON body handed to `JSON.stringify` at a POST call site, kept
structurally (no claim depends on the textual encoding). -/
inductive RequestBody where
  | linkBody (image : Option String) (name : Option String) (price : Option Int)
  | payoutBody (amount : Int)
  | refundBody (payments : List String)
  deriving Repr, DecidableEq

/-- An HTTP request as the wrapper hands it to `fetch`: method, URL string
(built verbatim, the client applies no URL-encoding), the header list, and the
optional JSON body. -/
structure Request where
  method : String
  url : String
  headers : List (String × String)
  body : Option RequestBody
  deriving Repr, DecidableEq

deriving instance DecidableEq for Except

/-- The transport response abstraction (spec section 1): status code, status
text, the text body that `res.text()` yields, and the outcome of the JSON
decode that `res.json()` yields. -/
structure Response where
  status : Nat
  statusText : String
  textBody : String
  jsonBody : Except String JsValue
  deriving Repr, DecidableEq

/-- What the single `fetch` call of an operation would do: resolve with a
response, or reject with a transport failure (network error and the like). -/
inductive FetchResult where
  | success (res : Response)
  | failure (msg : String)
  deriving Repr, DecidableEq

/-- Settlement of a deferred: the first `resolve` or `reject` call wins. -/
inductive Settled where
  | resolved (v : JsValue)
  | rejected (e : JsError)
  deriving Repr, DecidableEq

/-- Executor state: the settlement of the outer promise (if any) and the log
of requests handed to the transport so far. -/
structure ExecSt where
  settled : Option Settled
  requests : List Request
  deriving Repr, DecidableEq

/-- Result of running an executor fragment: it either completes normally or a
JavaScript exception propagates out of the (async) executor. -/
inductive StepRes (α : Type) where
  | normal (a : α)
  | thrown (e : JsError)
  deriving Repr

/-- An executor computation: state in, result and state out. -/
def ExecM (α : Type) : Type := ExecSt → StepRes α × ExecSt

/-- Sequencing of executor fragments: once an exception is thrown inside the
async executor, the rest of the executor body does not run. -/
def ExecM.bind {α β : Type} (m : ExecM α) (f : α → ExecM β) : ExecM β := fun s =>
  match m s with
  | (StepRes.normal a, s1) => f a s1
  | (StepRes.thrown e, s1) => (StepRes.thrown e, s1)

/-- A `resolve(v)` call: settles the outer promise unless already settled. -/
def jsResolve (v : JsValue) : ExecM Unit := fun s =>
  (StepRes.normal (), match s.settled with
    | none => { s with settled := some (Settled.resolved v) }
    | some _ => s)

/-- A `reject(e)` call: settles the outer promise unless already settled. -/
def jsReject (e : JsError) : ExecM Unit := fun s =>
  (StepRes.normal (), match s.settled with
    | none => { s with settled := some (Settled.rejected e) }
    | some _ => s)

/-- A thrown JavaScript exception inside the async executor: the `Promise`
constructor does not observe it, so the settlement state is left unchanged. -/
def jsThrow {α : Type} (e : JsError) : ExecM α := fun s =>
  (StepRes.thrown e, s)

/-- An `await fetch(req, opts)`: the request is handed to the transport; if
the transport rejects, the `await` rethrows the failure inside the executor. -/
def jsFetch (req : Request) (transport : FetchResult) : ExecM Response := fun s =>
  let s1 := { s with requests := s.requests ++ [req] }
  match transport with
  | FetchResult.success res => (StepRes.normal res, s1)
  | FetchResult.failure msg => (StepRes.thrown (JsError.transport msg), s1)

/-- The source expression `res.catch(reject)` where `res` is the awaited
`Response`: a WHATWG `Response` is not a promise and has no `catch` member,
so the member access yields `undefined` and the call throws a `TypeError`. -/
def responseCatch (_res : Response) : ExecM Unit :=
  jsThrow (JsError.typeError "res.catch is not a function")

/-- Observable outcome of an operation: the returned promise resolved,
rejected, or was never settled (it hangs forever). -/
inductive Outcome where
  | resolved (v : JsValue)
  | rejected (e : JsError)
  | unsettled
  deriving Repr, DecidableEq

/-- Run an executor from the fresh state and read off the promise outcome and
the list of HTTP requests that were issued. -/
def runExec (m : ExecM Unit) : Outcome × List Request :=
  let r := m { settled := none, requests := [] }
  (match r.2.settled with
   | some (Settled.resolved v) => Outcome.resolved v
   | some (Settled.rejected e) => Outcome.rejected e
   | none => Outcome.unsettled,
   r.2.requests)

/-- Headers attached at every fetch call site in the source: exactly
`Authorization` (the captured API key) and `Content-Type`. -/
def snailHeaders (apiKey : String) : List (String × String) :=
  [("Authorization", apiKey), ("Content-Type", "application/json")]

/-- JavaScript truthiness test for an optional string member (`!options.name`,
`!apiKey`): falsy when absent (`undefined`) or the empty string. -/
def jsFalsyStr : Option String → Bool
  | none => true
  | some s => s == ""

/-- JavaScript truthiness test for an optional numeric member
(`!options.price`): falsy when absent (`undefined`) or zero. -/
def jsFalsyNum : Option Int → Bool
  | none => true
  | some n => n == 0

/-- The constructor (src/index.js lines 5-6): `if (!apiKey) throw "You need to
provide an API key!"`.  It is synchronous, performs no network access (the
fetch calls live inside the closures it installs, which run only when
invoked), and on success captures the key for all operations. -/
def snailConstructor (apiKey : Option String) : Except JsError String :=
  if jsFalsyStr apiKey then
    Except.error (JsError.thrownString "You need to provide an API key!")
  else
    Except.ok (apiKey.getD "")

/-- The request built at src/index.js lines 17-26. -/
def verifyPaymentRequest (apiKey code : String) : Request :=
  { method := "GET",
    url := "https://snailpay.app/verify-payment?code=" ++ code,
    headers := snailHeaders apiKey,
    body := none }

/-- Executor of `verifyPayment` (src/index.js lines 13-36), line by line:
the length gate with early return, the awaited fetch, the `res.catch(reject)`
expression, the status gate, and `resolve(res.json().catch(reject))` (the
outer promise adopts the decode; a decode failure fires the `catch` handler
and the chained promise then fulfills with `undefined`). -/
def verifyPaymentExec (apiKey code : String) (transport : FetchResult) : ExecM Unit :=
  if code.length ≠ 10 then jsResolve (JsValue.bool false)
  else
    ExecM.bind (jsFetch (verifyPaymentRequest apiKey code) transport) (fun res =>
    ExecM.bind (responseCatch res) (fun _ =>
    if res.status ≠ 200 then jsResolve (JsValue.bool false)
    else
      match res.jsonBody with
      | Except.ok v => jsResolve v
      | Except.error e =>
        ExecM.bind (jsReject (JsError.transport e)) (fun _ => jsResolve JsValue.undef)))

/-- Promise outcome and request log of `verifyPayment(code)`. -/
def verifyPayment (apiKey code : String) (transport : FetchResult) : Outcome × List Request :=
  runExec (verifyPaymentExec apiKey code transport)

/-- Options record for the link-creation operations: `{image, name, price}`. -/
structure LinkOptions where
  image : Option String
  name : Option String
  price : Option Int
  deriving Repr, DecidableEq

/-- The validation message of src/index.js lines 50-52 and 90-92. -/
def linkValidationMsg : String :=
  "You need to provide a name and a price for your product!"

/-- The request built at src/index.js lines 55-66. -/
def createPaymentLinkRequest (apiKey : String) (options : LinkOptions) : Request :=
  { method := "POST",
    url := "https://snailpay.app/payment-link",
    headers := snailHeaders apiKey,
    body := some (RequestBody.linkBody options.image options.name options.price) }

/-- Executor of `createPaymentLink` (src/index.js lines 46-76): the validation
branch calls `reject` but has no early return, so execution falls through to
the fetch; then `res.catch(reject)`, the status gate, and
`resolve(await res.text())`. -/
def createPaymentLinkExec (apiKey : String) (options : LinkOptions)
    (transport : FetchResult) : ExecM Unit :=
  ExecM.bind
    (if jsFalsyStr options.name || jsFalsyNum options.price then
      jsReject (JsError.jsError linkValidationMsg)
    else fun s => (StepRes.normal (), s)) (fun _ =>
  ExecM.bind (jsFetch (createPaymentLinkRequest apiKey options) transport) (fun res =>
  ExecM.bind (responseCatch res) (fun _ =>
  if res.status ≠ 200 then jsReject (JsError.jsError res.statusText)
  else jsResolve (JsValue.str res.textBody))))

/-- Promise outcome and request log of `createPaymentLink(options)`. -/
def createPaymentLink (apiKey : String) (options : LinkOptions)
    (transport : FetchResult) : Outcome × List Request :=
  runExec (createPaymentLinkExec apiKey options transport)

/-- The request built at src/index.js lines 95-106. -/
def createSubscriptionLinkRequest (apiKey : String) (options : LinkOptions) : Request :=
  { method := "POST",
    url := "https://snailpay.app/subscription-link",
    headers := snailHeaders apiKey,
    body := some (RequestBody.linkBody options.image options.name options.price) }

/-- Executor of `createSubscriptionLink` (src/index.js lines 86-116): same
shape as `createPaymentLink` against the subscription-link path. -/
def createSubscriptionLinkExec (apiKey : String) (options : LinkOptions)
    (transport : FetchResult) : ExecM Unit :=
  ExecM.bind
    (if jsFalsyStr options.name || jsFalsyNum options.price then
      jsReject (JsError.jsError linkValidationMsg)
    else fun s => (StepRes.normal (), s)) (fun _ =>
  ExecM.bind (jsFetch (createSubscriptionLinkRequest apiKey options) transport) (fun res =>
  ExecM.bind (responseCatch res) (fun _ =>
  if res.status ≠ 200 then jsReject (JsError.jsError res.statusText)
  else jsResolve (JsValue.str res.textBody))))

/-- Promise outcome and request log of `createSubscriptionLink(options)`. -/
def createSubscriptionLink (apiKey : String) (options : LinkOptions)
    (transport : FetchResult) : Outcome × List Request :=
  runExec (createSubscriptionLinkExec apiKey options transport)

/-- Shared executor shape of the five list operations (src/index.js lines
122-236): GET the given path, `res.catch(reject)`, the status gate rejecting
with the status text, then `resolve(await res.json())` — an `await` of a
failed decode rethrows inside the executor. -/
def listExec (apiKey url : String) (transport : FetchResult) : ExecM Unit :=
  ExecM.bind
    (jsFetch { method := "GET", url := url, headers := snailHeaders apiKey, body := none }
      transport) (fun res =>
  ExecM.bind (responseCatch res) (fun _ =>
  if res.status ≠ 200 then jsReject (JsError.jsError res.statusText)
  else
    match res.jsonBody with
    | Except.ok v => jsResolve v
    | Except.error e => jsThrow (JsError.transport e)))

/-- Promise outcome and request log of `listPayments()` (lines 122-140). -/
def listPayments (apiKey : String) (transport : FetchResult) : Outcome × List Request :=
  runExec (listExec apiKey "https://snailpay.app/payment-list" transport)

/-- Promise outcome and request log of `listSubscriptions()` (lines 146-164). -/
def listSubscriptions (apiKey : String) (transport : FetchResult) : Outcome × List Request :=
  runExec (listExec apiKey "https://snailpay.app/subscription-list" transport)

/-- Promise outcome and request log of `listSubscriptionLinks()` (lines 170-188). -/
def listSubscriptionLinks (apiKey : String) (transport : FetchResult) : Outcome × List Request :=
  runExec (listExec apiKey "https://snailpay.app/subscription-link-list" transport)

/-- Promise outcome and request log of `listPaymentLinks()` (lines 194-212). -/
def listPaymentLinks (apiKey : String) (transport : FetchResult) : Outcome × List Request :=
  runExec (listExec apiKey "https://snailpay.app/payment-link-list" transport)

/-- Promise outcome and request log of `listPayouts()` (lines 218-236). -/
def listPayouts (apiKey : String) (transport : FetchResult) : Outcome × List Request :=
  runExec (listExec apiKey "https://snailpay.app/payout" transport)

/-- The request built at src/index.js lines 245-254. -/
def newPayoutRequest (apiKey : String) (amount : Int) : Request :=
  { method := "POST",
    url := "https://snailpay.app/new-payout",
    headers := snailHeaders apiKey,
    body := some (RequestBody.payoutBody amount) }

/-- Executor of `newPayout` (src/index.js lines 243-262): POST the amount,
`res.catch(reject)`, the status gate, then `resolve()` with no value. -/
def newPayoutExec (apiKey : String) (amount : Int) (transport : FetchResult) : ExecM Unit :=
  ExecM.bind (jsFetch (newPayoutRequest apiKey amount) transport) (fun res =>
  ExecM.bind (responseCatch res) (fun _ =>
  if res.status ≠ 200 then jsReject (JsError.jsError res.statusText)
  else jsResolve JsValue.undef))

/-- Promise outcome and request log of `newPayout(amount)`. -/
def newPayout (apiKey : String) (amount : Int) (transport : FetchResult) :
    Outcome × List Request :=
  runExec (newPayoutExec apiKey amount transport)

/-- The request built at src/index.js lines 271-280. -/
def refundPaymentRequest (apiKey : String) (payments : List String) : Request :=
  { method := "POST",
    url := "https://snailpay.app/refund-payment",
    headers := snailHeaders apiKey,
    body := some (RequestBody.refundBody payments) }

/-- Executor of `refundPayment` (src/index.js lines 269-288): POST the payment
ids, `res.catch(reject)`, the status gate, then `resolve()` with no value. -/
def refundPaymentExec (apiKey : String) (payments : List String)
    (transport : FetchResult) : ExecM Unit :=
  ExecM.bind (jsFetch (refundPaymentRequest apiKey payments) transport) (fun res =>
  ExecM.bind (responseCatch res) (fun _ =>
  if res.status ≠ 200 then jsReject (JsError.jsError res.statusText)
  else jsResolve JsValue.undef))

/-- Promise outcome and request log of `refundPayment(payments)`. -/
def refundPayment (apiKey : String) (payments : List String) (transport : FetchResult) :
    Outcome × List Request :=
  runExec (refundPaymentExec apiKey payments transport)

/-! Request-log characterizations: each operation hands at most one request to
the transport, and does so whether the transport then succeeds or fails. -/

theorem verifyPayment_requests (apiKey code : String) (transport : FetchResult) :
    (verifyPayment apiKey code transport).snd = [] ∨
    (verifyPayment apiKey code transport).snd = [verifyPaymentRequest apiKey code] := by
  unfold verifyPayment verifyPaymentExec
  by_cases h : code.length = 10
  · right
    rw [if_neg (fun hn => hn h)]
    cases transport <;> rfl
  · left
    rw [if_pos h]
    rfl

theorem createPaymentLink_requests (apiKey : String) (o : LinkOptions) (t : FetchResult) :
    (createPaymentLink apiKey o t).snd = [createPaymentLinkRequest apiKey o] := by
  unfold createPaymentLink createPaymentLinkExec
  cases h : jsFalsyStr o.name || jsFalsyNum o.price <;> cases t <;> rfl

theorem createSubscriptionLink_requests (apiKey : String) (o : LinkOptions) (t : FetchResult) :
    (createSubscriptionLink apiKey o t).snd = [createSubscriptionLinkRequest apiKey o] := by
  unfold createSubscriptionLink createSubscriptionLinkExec
  cases h : jsFalsyStr o.name || jsFalsyNum o.price <;> cases t <;> rfl

theorem listExec_requests (apiKey url : String) (t : FetchResult) :
    (runExec (listExec apiKey url t)).snd =
      [{ method := "GET", url := url, headers := snailHeaders apiKey, body := none }] := by
  unfold listExec
  cases t <;> rfl

theorem listPayments_requests (apiKey : String) (t : FetchResult) :
    (listPayments apiKey t).snd =
      [{ method := "GET", url := "https://snailpay.app/payment-list",
         headers := snailHeaders apiKey, body := none }] :=
  listExec_requests apiKey "https://snailpay.app/payment-list" t

theorem listSubscriptions_requests (apiKey : String) (t : FetchResult) :
    (listSubscriptions apiKey t).snd =
      [{ method := "GET", url := "https://snailpay.app/subscription-list",
         headers := snailHeaders apiKey, body := none }] :=
  listExec_requests apiKey "https://snailpay.app/subscription-list" t

theorem listSubscriptionLinks_requests (apiKey : String) (t : FetchResult) :
    (listSubscriptionLinks apiKey t).snd =
      [{ method := "GET", url := "https://snailpay.app/subscription-link-list",
         headers := snailHeaders apiKey, body := none }] :=
  listExec_requests apiKey "https://snailpay.app/subscription-link-list" t

theorem listPaymentLinks_requests (apiKey : String) (t : FetchResult) :
    (listPaymentLinks apiKey t).snd =
      [{ method := "GET", url := "https://snailpay.app/payment-link-list",
         headers := snailHeaders apiKey, body := none }] :=
  listExec_requests apiKey "https://snailpay.app/payment-link-list" t

theorem listPayouts_requests (apiKey : String) (t : FetchResult) :
    (listPayouts apiKey t).snd =
      [{ method := "GET", url := "https://snailpay.app/payout",
         headers := snailHeaders apiKey, body := none }] :=
  listExec_requests apiKey "https://snailpay.app/payout" t

theorem newPayout_requests (apiKey : String) (amount : Int) (t : FetchResult) :
    (newPayout apiKey amount t).snd = [newPayoutRequest apiKey amount] := by
  unfold newPayout newPayoutExec
  cases t <;> rfl

theorem refundPayment_requests (apiKey : String) (payments : List String) (t : FetchResult) :
    (refundPayment apiKey payments t).snd = [refundPaymentRequest apiKey payments] := by
  unfold refundPayment refundPaymentExec
  cases t <;> rfl

/-- Outcome of the link-creation executors: the validation rejection settles
the promise first when a field is falsy; otherwise nothing ever settles it
(transport failure aborts the executor at the await, and a response makes
the member call res.catch throw). -/
theorem createPaymentLink_fst (apiKey : String) (o : LinkOptions) (t : FetchResult) :
    (createPaymentLink apiKey o t).fst =
      (if jsFalsyStr o.name || jsFalsyNum o.price then
        Outcome.rejected (JsError.jsError linkValidationMsg)
      else Outcome.unsettled) := by
  unfold createPaymentLink createPaymentLinkExec
  cases h : jsFalsyStr o.name || jsFalsyNum o.price <;> cases t <;> rfl

theorem createSubscriptionLink_fst (apiKey : String) (o : LinkOptions) (t : FetchResult) :
    (createSubscriptionLink apiKey o t).fst =
      (if jsFalsyStr o.name || jsFalsyNum o.price then
        Outcome.rejected (JsError.jsError linkValidationMsg)
      else Outcome.unsettled) := by
  unfold createSubscriptionLink createSubscriptionLinkExec
  cases h : jsFalsyStr o.name || jsFalsyNum o.price <;> cases t <;> rfl

/-- C1 (failing input): createPaymentLink with an options object missing both
name and price does reject with the validation error, yet the POST to
/payment-link is still issued — the validation branch of the source has no
early return, so the fetch runs after the rejection. -/
theorem createPaymentLink_missing_fields_still_fetches :
    createPaymentLink "key" { image := none, name := none, price := none }
        (FetchResult.success
          { status := 200, statusText := "OK", textBody := "https://pay/x",
            jsonBody := Except.ok JsValue.undef }) =
      (Outcome.rejected (JsError.jsError linkValidationMsg),
       [{ method := "POST",
          url := "https://snailpay.app/payment-link",
          headers := snailHeaders "key",
          body := some (RequestBody.linkBody none none none) }]) := by
  rfl

/-- C2 (failing input): a transport failure does not reject the returned
promise.  The awaited fetch rethrows inside the inner async executor, the
Promise constructor never observes that rejection, and the promise stays
unsettled forever instead of rejecting with the transport failure. -/
theorem transport_failure_leaves_promise_unsettled :
    (verifyPayment "key" "abcdefghij" (FetchResult.failure "ECONNREFUSED")).fst =
        Outcome.unsettled ∧
      (listPayments "key" (FetchResult.failure "ECONNREFUSED")).fst = Outcome.unsettled := by
  exact ⟨rfl, rfl⟩

/-- C3 (failing input): verifyPayment with a 10-character code never settles
once a response arrives, whether the status is 200 or 404 — the member call
res.catch on the Response throws a TypeError that aborts the executor before
the status gate, so the promise neither resolves to the parsed object nor to
false. -/
theorem verifyPayment_never_settles_after_fetch :
    (verifyPayment "key" "abcdefghij"
        (FetchResult.success
          { status := 200, statusText := "OK", textBody := "\x7b\"id\":\"p1\"\x7d",
            jsonBody := Except.ok (JsValue.jsonVal "\x7b\"id\":\"p1\"\x7d") })).fst =
        Outcome.unsettled ∧
      (verifyPayment "key" "abcdefghij"
        (FetchResult.success
          { status := 404, statusText := "Not Found", textBody := "",
            jsonBody := Except.error "invalid json" })).fst = Outcome.unsettled := by
  exact ⟨rfl, rfl⟩

/-- C4: for every string code whose length is not exactly 10, verifyPayment
resolves to false and hands no request to the transport, whatever the
transport would have answered. -/
theorem verifyPayment_short_code_resolves_false (apiKey code : String)
    (transport : FetchResult) (h : code.length ≠ 10) :
    verifyPayment apiKey code transport = (Outcome.resolved (JsValue.bool false), []) := by
  unfold verifyPayment verifyPaymentExec
  rw [if_pos h]
  rfl

theorem verifyPayment_short_code_resolves_false_witness :
    "abc".length ≠ 10 ∧
      verifyPayment "key" "abc" (FetchResult.failure "err") =
        (Outcome.resolved (JsValue.bool false), []) :=
  ⟨by decide,
   verifyPayment_short_code_resolves_false "key" "abc" (FetchResult.failure "err") (by decide)⟩

/-- C5: constructing the client with a falsy key (absent or the empty string)
throws synchronously, and constructing with any non-empty key succeeds,
capturing exactly that key; the constructor takes no transport, so no network
access is possible at construction. -/
theorem snailConstructor_falsy_throws_nonempty_succeeds (apiKey : Option String) :
    (jsFalsyStr apiKey = true →
      snailConstructor apiKey =
        Except.error (JsError.thrownString "You need to provide an API key!")) ∧
    (∀ s, apiKey = some s → s ≠ "" → snailConstructor apiKey = Except.ok s) := by
  constructor
  · intro h
    unfold snailConstructor
    rw [if_pos h]
  · intro s hs hne
    subst hs
    have hb : jsFalsyStr (some s) = false := by
      simp [jsFalsyStr, hne]
    unfold snailConstructor
    rw [hb]
    rfl

theorem snailConstructor_falsy_throws_nonempty_succeeds_witness :
    snailConstructor none =
        Except.error (JsError.thrownString "You need to provide an API key!") ∧
      snailConstructor (some "") =
        Except.error (JsError.thrownString "You need to provide an API key!") ∧
      snailConstructor (some "my-key") = Except.ok "my-key" :=
  ⟨(snailConstructor_falsy_throws_nonempty_succeeds none).1 (by decide),
   (snailConstructor_falsy_throws_nonempty_succeeds (some "")).1 (by decide),
   (snailConstructor_falsy_throws_nonempty_succeeds (some "my-key")).2 "my-key" rfl (by decide)⟩

/-- C6 (failing input): createPaymentLink with valid options never settles
once a response arrives — res.catch throws before the status gate — so it
neither resolves to the 200 text body nor rejects with the 500 status text. -/
theorem createPaymentLink_never_settles_after_fetch :
    (createPaymentLink "key" { image := none, name := some "Widget", price := some 5 }
        (FetchResult.success
          { status := 200, statusText := "OK", textBody := "https://pay/x",
            jsonBody := Except.ok JsValue.undef })).fst = Outcome.unsettled ∧
      (createPaymentLink "key" { image := none, name := some "Widget", price := some 5 }
        (FetchResult.success
          { status := 500, statusText := "Internal Server Error", textBody := "",
            jsonBody := Except.ok JsValue.undef })).fst = Outcome.unsettled := by
  exact ⟨rfl, rfl⟩

/-- C7 (failing input): no status is treated as the claim describes — a 201
response to newPayout is not rejected with the status text and a 201 response
to verifyPayment is not resolved to false; both promises stay unsettled,
because res.catch throws before the comparison with 200 is ever reached. -/
theorem non200_not_rejected_with_status_text :
    (newPayout "key" 5
        (FetchResult.success
          { status := 201, statusText := "Created", textBody := "",
            jsonBody := Except.ok JsValue.undef })).fst = Outcome.unsettled ∧
      (verifyPayment "key" "abcdefghij"
        (FetchResult.success
          { status := 201, statusText := "Created", textBody := "",
            jsonBody := Except.ok JsValue.undef })).fst = Outcome.unsettled := by
  exact ⟨rfl, rfl⟩

/-- C8: every request any of the ten operations hands to the transport
carries exactly the two headers Authorization (the captured API key) and
Content-Type application/json. -/
theorem snail_requests_carry_exact_headers (apiKey code : String) (o : LinkOptions)
    (amount : Int) (payments : List String) (t : FetchResult) (r : Request)
    (h : r ∈ (verifyPayment apiKey code t).snd ∨
         r ∈ (createPaymentLink apiKey o t).snd ∨
         r ∈ (createSubscriptionLink apiKey o t).snd ∨
         r ∈ (listPayments apiKey t).snd ∨
         r ∈ (listSubscriptions apiKey t).snd ∨
         r ∈ (listSubscriptionLinks apiKey t).snd ∨
         r ∈ (listPaymentLinks apiKey t).snd ∨
         r ∈ (listPayouts apiKey t).snd ∨
         r ∈ (newPayout apiKey amount t).snd ∨
         r ∈ (refundPayment apiKey payments t).snd) :
    r.headers = snailHeaders apiKey := by
  rcases h with h | h | h | h | h | h | h | h | h | h
  · rcases verifyPayment_requests apiKey code t with hr | hr <;> rw [hr] at h
    · simp at h
    · rw [List.mem_singleton] at h
      subst h
      rfl
  · rw [createPaymentLink_requests, List.mem_singleton] at h
    subst h
    rfl
  · rw [createSubscriptionLink_requests, List.mem_singleton] at h
    subst h
    rfl
  · rw [listPayments_requests, List.mem_singleton] at h
    subst h
    rfl
  · rw [listSubscriptions_requests, List.mem_singleton] at h
    subst h
    rfl
  · rw [listSubscriptionLinks_requests, List.mem_singleton] at h
    subst h
    rfl
  · rw [listPaymentLinks_requests, List.mem_singleton] at h
    subst h
    rfl
  · rw [listPayouts_requests, List.mem_singleton] at h
    subst h
    rfl
  · rw [newPayout_requests, List.mem_singleton] at h
    subst h
    rfl
  · rw [refundPayment_requests, List.mem_singleton] at h
    subst h
    rfl

theorem snail_requests_carry_exact_headers_witness :
    ({ method := "GET", url := "https://snailpay.app/payment-list",
       headers := snailHeaders "key", body := none } : Request).headers =
      snailHeaders "key" :=
  snail_requests_carry_exact_headers "key" "abc"
    { image := none, name := none, price := none } 5 [] (FetchResult.failure "err")
    { method := "GET", url := "https://snailpay.app/payment-list",
      headers := snailHeaders "key", body := none }
    (Or.inr (Or.inr (Or.inr (Or.inl (by
      rw [listPayments_requests]
      exact List.mem_singleton.mpr rfl)))))

/-- C9: both link-creation operations settle with the validation rejection
exactly when the name is falsy or the price is falsy (absent or empty-string
name, absent or zero price), and a non-empty name with a negative price
passes validation — the request is issued and positivity is never enforced. -/
theorem link_validation_exactly_on_falsy (apiKey : String) (o : LinkOptions)
    (t : FetchResult) :
    ((createPaymentLink apiKey o t).fst =
        Outcome.rejected (JsError.jsError linkValidationMsg) ↔
      (jsFalsyStr o.name || jsFalsyNum o.price) = true) ∧
    ((createSubscriptionLink apiKey o t).fst =
        Outcome.rejected (JsError.jsError linkValidationMsg) ↔
      (jsFalsyStr o.name || jsFalsyNum o.price) = true) ∧
    (∀ s p, o.name = some s → s ≠ "" → o.price = some p → p < 0 →
      (jsFalsyStr o.name || jsFalsyNum o.price) = false ∧
      (createPaymentLink apiKey o t).snd = [createPaymentLinkRequest apiKey o] ∧
      (createSubscriptionLink apiKey o t).snd = [createSubscriptionLinkRequest apiKey o]) := by
  refine ⟨?_, ?_, ?_⟩
  · rw [createPaymentLink_fst]
    cases h : jsFalsyStr o.name || jsFalsyNum o.price <;> simp [h]
  · rw [createSubscriptionLink_fst]
    cases h : jsFalsyStr o.name || jsFalsyNum o.price <;> simp [h]
  · intro s p hs hne hp hneg
    refine ⟨?_, createPaymentLink_requests apiKey o t,
      createSubscriptionLink_requests apiKey o t⟩
    rw [hs, hp]
    have hp0 : p ≠ 0 := by omega
    simp [jsFalsyStr, jsFalsyNum, hne, hp0]

theorem link_validation_exactly_on_falsy_witness :
    (jsFalsyStr (some "Widget") || jsFalsyNum (some (-3))) = false ∧
      (createPaymentLink "key" { image := none, name := some "Widget", price := some (-3) }
          (FetchResult.failure "err")).snd =
        [createPaymentLinkRequest "key"
          { image := none, name := some "Widget", price := some (-3) }] ∧
      (createSubscriptionLink "key" { image := none, name := some "Widget", price := some (-3) }
          (FetchResult.failure "err")).snd =
        [createSubscriptionLinkRequest "key"
          { image := none, name := some "Widget", price := some (-3) }] :=
  (link_validation_exactly_on_falsy "key"
      { image := none, name := some "Widget", price := some (-3) }
      (FetchResult.failure "err")).2.2 "Widget" (-3) rfl (by decide) rfl (by decide)

/-- C10: for every 10-character code the single request verifyPayment issues
has as URL exactly the string concatenation of the base
https://snailpay.app/verify-payment?code= and the code verbatim — no
URL-encoding is applied to any character of the code. -/
theorem verifyPayment_url_verbatim (apiKey code : String) (transport : FetchResult)
    (h : code.length = 10) :
    (verifyPayment apiKey code transport).snd =
      [{ method := "GET",
         url := "https://snailpay.app/verify-payment?code=" ++ code,
         headers := snailHeaders apiKey,
         body := none }] := by
  unfold verifyPayment verifyPaymentExec
  rw [if_neg (fun hn => hn h)]
  cases transport <;> rfl

theorem verifyPayment_url_verbatim_witness :
    ("a b&c=d?e/" : String).length = 10 ∧
      (verifyPayment "key" "a b&c=d?e/" (FetchResult.failure "err")).snd =
        [{ method := "GET",
           url := "https://snailpay.app/verify-payment?code=" ++ "a b&c=d?e/",
           headers := snailHeaders "key",
           body := none }] :=
  ⟨by decide,
   verifyPayment_url_verbatim "key" "a b&c=d?e/" (FetchResult.failure "err") (by decide)⟩

end Snail
